import Mathlib

/-!
# Verification of the Hurricane-Visualizer scraping pipeline

This file gives a shallow embedding of `src/PythonScript.py` and proves
(or refutes) the specification claims about it.

Modelling conventions:
* A Python string cell is `String`; Python `None` is `Option.none`, so the
  cells of a normalized row have type `Cell := Option String` (`some s`
  for a string cell, `none` for `None`).
* Python exceptions that the source does not catch are modelled with
  `Except String`: an `Except.error` value marks a point where the real
  program raises.  Exceptions the source catches (`ValueError` around
  `strptime`, `json.JSONDecodeError` around `json.load`) are folded into
  the normal control flow exactly as the `except` clauses do.
* `row[i]` on a too-short row raises `IndexError` in Python.  Reads are
  modelled with `List.getD`/a `none` default; theorems that depend on a
  read supply a length hypothesis restricting them to Python's domain
  (the archive's tables are uniform-width).
* CPython specifics that the source relies on are modelled from the
  CPython reference behaviour: `str.split()` (split on whitespace runs,
  dropping empty tokens), truthiness (`None`, `""`, `0`, `[]` falsy),
  `int(str)` (stripped, optional sign, decimal digits; underscore digit
  separators are not modelled), `float(str)` (sign, digit/point/exponent
  forms, `inf`/`infinity`/`nan`; underscores not modelled), and
  `datetime.strptime` with the fixed `"%Y-%m-%d %H:%M:%S"` pattern
  (exactly four year digits, one-or-two digit month/day/hour/minute/
  second fields, calendar-valid day, with the `datetime` constructor's
  second ≤ 59 bound folded in; non-ASCII digits are not modelled).
-/

/-! ## Python string primitives -/

/-- Numeric value of a list of decimal digit characters. -/
def readNatDigits (cs : List Char) : Nat :=
  cs.foldl (fun a c => a * 10 + (c.toNat - 48)) 0

/-- Parse a nonempty all-digit character list, else `none`. -/
def digitsNat (cs : List Char) : Option Nat :=
  if cs ≠ [] ∧ cs.all Char.isDigit then some (readNatDigits cs) else none

/-- Python `str.strip()` on a character list (ASCII whitespace). -/
def pyStrip (cs : List Char) : List Char :=
  ((cs.dropWhile Char.isWhitespace).reverse.dropWhile Char.isWhitespace).reverse

/-- Python `int(s)` for decimal text: strip whitespace, optional sign,
one or more digits.  Returns `none` where Python raises `ValueError`. -/
def pyInt (s : String) : Option Int :=
  match pyStrip s.data with
  | '+' :: r => (digitsNat r).map Int.ofNat
  | '-' :: r => (digitsNat r).map (fun n => -(n : Int))
  | r => (digitsNat r).map Int.ofNat

/-- Whitespace tokenizer behind Python `str.split()` (no argument):
splits on runs of whitespace and never yields empty tokens.  `acc` holds
the (reversed) characters of the token being read. -/
def tokensAux : List Char → List Char → List (List Char)
  | [], acc => if acc = [] then [] else [acc.reverse]
  | c :: cs, acc =>
    if c.isWhitespace then
      if acc = [] then tokensAux cs [] else acc.reverse :: tokensAux cs []
    else tokensAux cs (c :: acc)

/-- Python `s.split()`. -/
def pyTokens (s : String) : List String :=
  (tokensAux s.data []).map String.mk

/-- `s.split()[0]` as used on a string already known to contain a space;
the empty-token case (unreachable for stripped cells) defaults to `""`. -/
def firstWsToken (s : String) : String :=
  match tokensAux s.data [] with
  | [] => ""
  | t :: _ => String.mk t

/-- Python `" " in s` (the format string's separator is a single space). -/
def hasSpaceChar (s : String) : Bool :=
  s.data.any (fun c => c = ' ')

/-- Exponent tail of a float literal: optional sign then digits. -/
def expDigits (cs : List Char) : Bool :=
  match cs with
  | '+' :: r => r ≠ [] && r.all Char.isDigit
  | '-' :: r => r ≠ [] && r.all Char.isDigit
  | r => r ≠ [] && r.all Char.isDigit

/-- Optional exponent after the mantissa of a float literal. -/
def expTailOk : List Char → Bool
  | [] => true
  | 'e' :: r => expDigits r
  | 'E' :: r => expDigits r
  | _ => false

/-- Mantissa-and-exponent body of a Python float literal (sign already
consumed), plus the `inf`/`infinity`/`nan` words. -/
def floatBody (cs : List Char) : Bool :=
  if cs.map Char.toLower = "inf".data ∨ cs.map Char.toLower = "infinity".data
      ∨ cs.map Char.toLower = "nan".data then
    true
  else
    let d1 := cs.takeWhile Char.isDigit
    match cs.dropWhile Char.isDigit with
    | [] => d1 ≠ []
    | '.' :: r2 =>
      let d2 := r2.takeWhile Char.isDigit
      if d1 = [] ∧ d2 = [] then false
      else expTailOk (r2.dropWhile Char.isDigit)
    | r1 => d1 ≠ [] && expTailOk r1

/-- Python `float(s)` parse success: strip, optional sign, float body.
Returns `false` where Python raises `ValueError`. -/
def pyFloatOk (s : String) : Bool :=
  match pyStrip s.data with
  | '+' :: r => floatBody r
  | '-' :: r => floatBody r
  | r => floatBody r

/-! ## Calendar and `datetime` model -/

/-- The six datetime fields recovered by `strptime`. -/
structure DT where
  year : Nat
  month : Nat
  day : Nat
  hour : Nat
  minute : Nat
  second : Nat
deriving DecidableEq, Repr

/-- Gregorian leap-year rule (as in CPython's `datetime`). -/
def isLeap (y : Nat) : Bool :=
  y % 4 = 0 && (y % 100 ≠ 0 || y % 400 = 0)

/-- Days in a month of the proleptic Gregorian calendar. -/
def daysInMonth (y m : Nat) : Nat :=
  if m = 2 then (if isLeap y then 29 else 28)
  else if m = 4 ∨ m = 6 ∨ m = 9 ∨ m = 11 then 30
  else 31

/-- `datetime.strptime(s, "%Y-%m-%d %H:%M:%S")`.  The `_strptime` regex
demands exactly four year digits and one-or-two digits for the other
fields with the value bounds checked below; the `datetime` constructor
then enforces `1 <= year`, a calendar-valid day and `second <= 59`.
Returns `none` where Python raises `ValueError`. -/
def pyStrptime (s : String) : Option DT :=
  let cs := s.data
  let ys := cs.takeWhile Char.isDigit
  if ys.length ≠ 4 then none else
  match cs.dropWhile Char.isDigit with
  | '-' :: r2 =>
    let ms := r2.takeWhile Char.isDigit
    if ms.length = 0 ∨ 2 < ms.length then none else
    match r2.dropWhile Char.isDigit with
    | '-' :: r4 =>
      let ds := r4.takeWhile Char.isDigit
      if ds.length = 0 ∨ 2 < ds.length then none else
      match r4.dropWhile Char.isDigit with
      | ' ' :: r6 =>
        let hs := r6.takeWhile Char.isDigit
        if hs.length = 0 ∨ 2 < hs.length then none else
        match r6.dropWhile Char.isDigit with
        | ':' :: r8 =>
          let mins := r8.takeWhile Char.isDigit
          if mins.length = 0 ∨ 2 < mins.length then none else
          match r8.dropWhile Char.isDigit with
          | ':' :: r10 =>
            let ss := r10.takeWhile Char.isDigit
            if ss.length = 0 ∨ 2 < ss.length then none else
            if r10.dropWhile Char.isDigit ≠ [] then none else
            let y := readNatDigits ys
            let mo := readNatDigits ms
            let d := readNatDigits ds
            let h := readNatDigits hs
            let mi := readNatDigits mins
            let sec := readNatDigits ss
            if 1 ≤ y ∧ 1 ≤ mo ∧ mo ≤ 12 ∧ 1 ≤ d ∧ d ≤ daysInMonth y mo ∧
                h ≤ 23 ∧ mi ≤ 59 ∧ sec ≤ 59 then
              some ⟨y, mo, d, h, mi, sec⟩
            else none
          | _ => none
        | _ => none
      | _ => none
    | _ => none
  | _ => none

/-- Zero-padded two-digit field of `strftime`. -/
def pad2 (n : Nat) : String :=
  if n < 10 then "0" ++ toString n else toString n

/-- Zero-padded four-digit year of `strftime`. -/
def pad4 (n : Nat) : String :=
  if n < 10 then "000" ++ toString n
  else if n < 100 then "00" ++ toString n
  else if n < 1000 then "0" ++ toString n
  else toString n

/-- `time_obj.strftime("%Y-%m-%d %H:%M")` (seconds dropped). -/
def fmtNoSec (dt : DT) : String :=
  pad4 dt.year ++ "-" ++ pad2 dt.month ++ "-" ++ pad2 dt.day ++ " " ++
    pad2 dt.hour ++ ":" ++ pad2 dt.minute

/-- Days of the proleptic Gregorian calendar strictly before year `y`
(year 1 is day 0), as in CPython's `datetime.toordinal`. -/
def daysBeforeYear (y : Nat) : Nat :=
  365 * (y - 1) + (y - 1) / 4 - (y - 1) / 100 + (y - 1) / 400

/-- Days in year `y` strictly before month `m`. -/
def daysBeforeMonth (y m : Nat) : Nat :=
  [0, 31, 59, 90, 120, 151, 181, 212, 243, 273, 304, 334].getD (m - 1) 0 +
    (if 2 < m ∧ isLeap y then 1 else 0)

/-- `int(naive_datetime.timestamp())`.  The naive `timestamp()` of the
source depends on the host timezone; the conversion is modelled at
offset zero (UTC).  `719162` is the Gregorian ordinal of 1969-12-31. -/
def epochSecs (dt : DT) : Int :=
  ((daysBeforeYear dt.year + daysBeforeMonth dt.year dt.month +
      (dt.day - 1) : Int) - 719162) * 86400 +
    dt.hour * 3600 + dt.minute * 60 + dt.second

/-! ## Row normalization: `add_missing_dates_and_empty_cells` -/

/-- A normalized table cell: a Python string or `None`. -/
abbrev Cell := Option String

/-- The archive's explicit "not applicable" marker. -/
def naMark : String := "N / A"

/-- Loop state of `add_missing_dates_and_empty_cells`: the running
`last_date` and the previously processed (already gap-filled) row. -/
structure NormState where
  last_date : Option String
  last_row : Option (List Cell)

/-- One iteration of the inner cell loop at column `i`:
`N / A` becomes `None`; an empty cell inherits `last_row[i]` when a
previous row exists (`last_row[i]` out of range models Python's
`IndexError` with a `none` default). -/
def fillCell (lastRow : Option (List Cell)) (i : Nat) (c : String) : Cell :=
  if c = naMark then none
  else if c = "" then
    match lastRow with
    | some lr => lr.getD i none
    | none => some c
  else some c

/-- The inner cell loop of the normalizer, columns numbered from `i`. -/
def fillRow (lastRow : Option (List Cell)) : Nat → List String → List Cell
  | _, [] => []
  | i, c :: cs => fillCell lastRow i c :: fillRow lastRow (i + 1) cs

/-- The datetime step: if `row[1]` contains a space its leading
whitespace-token becomes the new running date; otherwise the cell is
rewritten to `"<last_date> <cell>"` when a running date exists. -/
def dtStep (lastDate : Option String) (row : List String) :
    Option String × List String :=
  let dt := row.getD 1 ""
  if hasSpaceChar dt then (some (firstWsToken dt), row)
  else
    match lastDate with
    | some d => (lastDate, row.set 1 (d ++ " " ++ dt))
    | none => (lastDate, row)

/-- One full iteration of the normalizer's row loop. -/
def processRow (st : NormState) (row : List String) : NormState × List Cell :=
  let p := dtStep st.last_date row
  let out := fillRow st.last_row 0 p.2
  (⟨p.1, some out⟩, out)

/-- The row loop of `add_missing_dates_and_empty_cells`. -/
def normRows (st : NormState) : List (List String) → List (List Cell)
  | [] => []
  | r :: rs =>
    let p := processRow st r
    p.2 :: normRows p.1 rs

/-- `data[0] = ['N / A' if not cell else cell for cell in data[0]]`. -/
def markFirstRow : List (List String) → List (List String)
  | [] => []
  | r :: rs => (r.map fun c => if c = "" then naMark else c) :: rs

/-- `add_missing_dates_and_empty_cells` (lines 66-83 of the source). -/
def add_missing_dates_and_empty_cells (data : List (List String)) :
    List (List Cell) :=
  normRows ⟨none, none⟩ (markFirstRow data)

example :
    add_missing_dates_and_empty_cells
      [["a", "2000-01-01 00:00:00", "5"],
       ["a", "2000-01-01 06:00:00", ""],
       ["a", "2000-01-01 12:00:00", ""]] =
      [[some "a", some "2000-01-01 00:00:00", some "5"],
       [some "a", some "2000-01-01 06:00:00", some "5"],
       [some "a", some "2000-01-01 12:00:00", some "5"]] := by decide

/-! ## Track record builder: the row loop of `save_data_as_json` -/

/-- One output track point (the dict appended to `typhoon_data["path"]`).
`lat`/`long` keep the text of the cell whose `float()` parse succeeded
(`none` for Python `None`); the pipeline never inspects the numeric
value, and `rowToPoint` raises exactly where `float()` would. -/
structure TrackPoint where
  time : Option String
  lat : Option String
  long : Option String
  speed : String
  pressure : String
  cls : Nat
deriving DecidableEq, Repr

/-- `row[i] if row[i] != "N / A" else None` on a normalized cell. -/
def naFilt (c : Cell) : Cell :=
  match c with
  | none => none
  | some s => if s = naMark then none else some s

/-- The `if speed < 34: ... elif speed >= 113:` chain (lines 155-166). -/
def speedClass (n : Int) : Nat :=
  if n < 34 then 0
  else if n ≤ 63 then 1
  else if n ≤ 82 then 2
  else if n ≤ 95 then 3
  else if n ≤ 112 then 4
  else 5

/-- The intensity class as a pure function of the wind-speed cell:
absent (`None`, `"N / A"`, `""`) speeds give class 0; the unreachable
non-numeric branch (where the code raises before producing a class)
also yields 0. -/
def cellClass (c : Cell) : Nat :=
  match naFilt c with
  | none => 0
  | some s =>
    if s = "" then 0
    else
      match pyInt s with
      | none => 0
      | some n => speedClass n

/-- Stored speed text: `str(speed) if speed else "< 35"`, where `speed`
has been replaced by `int(speed)` (so the integer `0` is falsy).  The
unreachable non-numeric branch yields the absent-speed text. -/
def renderSpeed (c : Cell) : String :=
  match naFilt c with
  | none => "< 35"
  | some s =>
    if s = "" then "< 35"
    else
      match pyInt s with
      | none => "< 35"
      | some n => if n = 0 then "< 35" else toString n

/-- Stored pressure text: `str(pressure) if pressure else "> 1008"`,
where `pressure` is still the raw cell text. -/
def renderPressure (c : Cell) : String :=
  match naFilt c with
  | none => "> 1008"
  | some s => if s = "" then "> 1008" else s

/-- The `if time:` block (lines 141-148).  Result `none` means the row
was skipped by the month filter (`continue`); `some t` keeps the row
with time cell `t`.  Both `ValueError`s that can arise inside the
`try` — `strptime` on unparseable text and `int(month)` on a truthy
non-numeric month — are caught by `except ValueError: pass`, which
leaves the cell at its raw (unreformatted) text, so this step never
fails; the `Except` wrapper is kept for uniformity with the other
steps of the loop body. -/
def timeStep (month : Option String) (c : Cell) :
    Except String (Option Cell) :=
  match c with
  | none => .ok (some none)
  | some s =>
    if s = "" then .ok (some (some s))
    else
      match pyStrptime s with
      | none => .ok (some (some s))
      | some dt =>
        match month with
        | none => .ok (some (some (fmtNoSec dt)))
        | some ms =>
          if ms = "" then .ok (some (some (fmtNoSec dt)))
          else
            match pyInt ms with
            | none => .ok (some (some s))
            | some mv =>
              if (dt.month : Int) = mv then .ok (some (some (fmtNoSec dt)))
              else .ok none

/-- `int(speed)` and the class chain (lines 151-168): stored text and
class, or the uncaught `ValueError` for non-numeric text. -/
def speedStep (c : Cell) : Except String (String × Nat) :=
  match naFilt c with
  | none => .ok ("< 35", 0)
  | some s =>
    if s = "" then .ok ("< 35", 0)
    else
      match pyInt s with
      | none => .error "ValueError: int(speed)"
      | some n => .ok (if n = 0 then "< 35" else toString n, speedClass n)

/-- `float(cell) if cell else None` (lines 171-172), keeping the parsed
cell's text; non-float text is the uncaught `ValueError`. -/
def floatStep (c : Cell) (label : String) : Except String (Option String) :=
  match naFilt c with
  | none => .ok none
  | some s =>
    if s = "" then .ok none
    else if pyFloatOk s then .ok (some s)
    else .error ("ValueError: float(" ++ label ++ ")")

/-- One iteration of the path loop of `save_data_as_json` (lines
139-176) on a normalized row: `ok none` when the month filter skips the
row, `ok (some pt)` when a point is appended, `error` where the code
raises.  Evaluation order matches the source: time block, `int(speed)`,
then the dict's `float(lat)`, `float(long)`. -/
def rowToPoint (month : Option String) (row : List Cell) :
    Except String (Option TrackPoint) :=
  match timeStep month (row.getD 1 none) with
  | .error e => .error e
  | .ok none => .ok none
  | .ok (some time) =>
    match speedStep (row.getD 5 none) with
    | .error e => .error e
    | .ok sp =>
      match floatStep (row.getD 3 none) "lat" with
      | .error e => .error e
      | .ok lat =>
        match floatStep (row.getD 4 none) "long" with
        | .error e => .error e
        | .ok lng =>
          .ok (some ⟨time, lat, lng, sp.1,
            renderPressure (row.getD 6 none), sp.2⟩)

/-- The whole path loop over the normalized rows. -/
def pathPoints (month : Option String) :
    List (List Cell) → Except String (List TrackPoint)
  | [] => .ok []
  | r :: rs =>
    match rowToPoint month r with
    | .error e => .error e
    | .ok p? =>
      match pathPoints month rs with
      | .error e => .error e
      | .ok rest =>
        .ok (match p? with | some p => p :: rest | none => rest)

/-- The `start_time` block (lines 177-183), a function of the
*unfiltered* normalized rows: `none` when there are no rows (the key is
never set), `some none` when `strptime` of the first row's cell raises
the caught `ValueError`, `some (some t)` on success (seconds zeroed
before `timestamp()`), and an uncaught `TypeError` when the first row's
cell is `None`. -/
def startTimeOf : List (List Cell) → Except String (Option (Option Int))
  | [] => .ok none
  | r :: _ =>
    match r.getD 1 none with
    | none => .error "TypeError: strptime(None)"
    | some s =>
      match pyStrptime s with
      | none => .ok (some none)
      | some dt => .ok (some (some (epochSecs { dt with second := 0 })))

/-- One storm's output dict.  `start_time = none` models the absent key
(no rows at all); `some none` models the JSON `null`. -/
structure Storm where
  name : String
  path : List TrackPoint
  start_time : Option (Option Int)
deriving DecidableEq, Repr

/-- Path loop followed by the `start_time` block for one storm. -/
def buildStorm (month : Option String) (name : String)
    (processed : List (List Cell)) : Except String Storm :=
  match pathPoints month processed with
  | .error e => .error e
  | .ok pts =>
    match startTimeOf processed with
    | .error e => .error e
    | .ok st => .ok ⟨name, pts, st⟩

/-- Name extraction (lines 129-133): second-to-last whitespace token of
the heading, or `"UNKNOWN"` for a one-token heading. -/
def pyNameOf (heading : String) : String :=
  let parts := pyTokens heading
  if 2 ≤ parts.length then parts.getD (parts.length - 2) "" else "UNKNOWN"

/-- What the two fetches of one storm link yield: the `h1` heading text
(`none` when the fetch failed or no heading exists) and the raw rows of
the fourth table (`none` when the fetch failed or fewer than four
tables exist).  Network and HTML parsing are external collaborators;
their results are the input of the embedded loop body. -/
structure StormPage where
  heading : Option String
  table : Option (List (List String))
deriving Repr

/-- The body of the per-link loop of `save_data_as_json` (lines
125-184): a falsy heading or falsy table skips the storm (`ok none`);
otherwise the raw rows are normalized and the storm is built. -/
def processPage (month : Option String) (p : StormPage) :
    Except String (Option Storm) :=
  match p.heading with
  | none => .ok none
  | some h =>
    if h = "" then .ok none
    else
      match p.table with
      | none => .ok none
      | some t =>
        if t = [] then .ok none
        else
          match buildStorm month (pyNameOf h)
              (add_missing_dates_and_empty_cells t) with
          | .error e => .error e
          | .ok s => .ok (some s)

/-- The per-link loop of `save_data_as_json`, accumulating
`all_typhoon_data` in link order. -/
def save_data_as_json (month : Option String) :
    List StormPage → Except String (List Storm)
  | [] => .ok []
  | p :: ps =>
    match processPage month p with
    | .error e => .error e
    | .ok s? =>
      match save_data_as_json month ps with
      | .error e => .error e
      | .ok rest =>
        .ok (match s? with | some s => s :: rest | none => rest)

/-- The year/basin index page at the collaborator boundary, after a
*successful* fetch (lines 28-45): `linkTable = none` models
`extract_links_from_second_table` finding fewer than two matching
layout tables (it prints and returns `None`); otherwise the
basin-name → storm-link association list it builds, each link already
paired with what its two later per-link fetches yield (the page
heading and the fourth table). -/
structure YearIndex where
  linkTable : Option (List (String × List StormPage))

/-- Lines 119-123 on a parsed index page: `if not links_by_basin:
return None` is taken both for `None` (fewer than two tables) and for
an empty map, and an unknown basin name is reported and `None`
returned; otherwise the requested basin's links. -/
def resolveBasin (basin : String) (idx : YearIndex) :
    Option (List StormPage) :=
  match idx.linkTable with
  | none => none
  | some [] => none
  | some basins => basins.lookup basin

/-- The full body of `save_data_as_json` (lines 117-186), with the
per-link loop factored out as `save_data_as_json`.  A failed year-page
fetch makes `fetch_year_page` return `None` (line 25), which flows
with no intermediate guard into `BeautifulSoup(None, 'html.parser')`
inside `extract_links_from_second_table` (line 118 calls it directly
on the fetch result); bs4 raises `TypeError` on `None` markup
(`object of type 'NoneType' has no len()`), an exception nothing in
the source catches.  `if not links_by_basin: return None` (lines
119-120) treats both `None` (fewer than two tables) and an empty map
as a soft failure; an unknown basin name is reported and `None`
returned (lines 121-123). -/
def save_data_as_json_full (month : Option String)
    (pageText : Option YearIndex) (basin : String) :
    Except String (Option (List Storm)) :=
  match pageText with
  | none => .error "TypeError: BeautifulSoup(None)"
  | some idx =>
    match resolveBasin basin idx with
    | none => .ok none
    | some pages =>
      match save_data_as_json month pages with
      | .error e => .error e
      | .ok ds => .ok (some ds)

/-! ## Dataset cache: `save_cache`, `load_cache`, `scrape_typhoon_data`

The cache file holds the JSON text written by `json.dump` and read back
by `json.load`.  The textual layer is the `json` module's documented
round trip on the value shapes produced here, so a file is modelled as
either a parsed JSON value or an unparseable (corrupt) blob; float
values are identified by the text whose `float()` parse produced them. -/

/-- The JSON values `json.dump`/`json.load` exchange for this program. -/
inductive Json where
  | null
  | str (s : String)
  | int (n : Int)
  | num (s : String)
  | arr (elems : List Json)
  | obj (fields : List (String × Json))

/-- Encoding of one `path` entry, keys in dict insertion order. -/
def encodePoint (p : TrackPoint) : Json :=
  .obj [("time", match p.time with | none => .null | some s => .str s),
        ("lat", match p.lat with | none => .null | some s => .num s),
        ("long", match p.long with | none => .null | some s => .num s),
        ("speed", .str p.speed),
        ("pressure", .str p.pressure),
        ("class", .int p.cls)]

/-- Encoding of one storm dict; `start_time` is a key only when the
storm had at least one normalized row. -/
def encodeStorm (s : Storm) : Json :=
  .obj ([("name", .str s.name), ("path", .arr (s.path.map encodePoint))] ++
    (match s.start_time with
     | none => []
     | some none => [("start_time", .null)]
     | some (some t) => [("start_time", .int t)]))

/-- Encoding of the full dataset (`all_typhoon_data`). -/
def encodeDataset (d : List Storm) : Json :=
  .arr (d.map encodeStorm)

/-- A JSON value that is `null` or a string, as an optional string. -/
def decOptStr : Json → Option (Option String)
  | .null => some none
  | .str s => some (some s)
  | _ => none

/-- A JSON value that is `null` or a number, as an optional float text. -/
def decOptNum : Json → Option (Option String)
  | .null => some none
  | .num s => some (some s)
  | _ => none

/-- Map a partial function over a list, failing if any element fails. -/
def mapOpt (f : α → Option β) : List α → Option (List β)
  | [] => some []
  | a :: as =>
    match f a, mapOpt f as with
    | some b, some bs => some (b :: bs)
    | _, _ => none

/-- Reading a `path` entry back into a `TrackPoint`. -/
def decodePoint : Json → Option TrackPoint
  | .obj [("time", jt), ("lat", jla), ("long", jlo), ("speed", .str sp),
          ("pressure", .str pr), ("class", .int c)] =>
    match decOptStr jt, decOptNum jla, decOptNum jlo, c with
    | some t, some la, some lo, Int.ofNat n => some ⟨t, la, lo, sp, pr, n⟩
    | _, _, _, _ => none
  | _ => none

/-- Reading a storm dict back into a `Storm`. -/
def decodeStorm : Json → Option Storm
  | .obj [("name", .str n), ("path", .arr ps)] =>
    (mapOpt decodePoint ps).map (fun pts => ⟨n, pts, none⟩)
  | .obj [("name", .str n), ("path", .arr ps), ("start_time", .null)] =>
    (mapOpt decodePoint ps).map (fun pts => ⟨n, pts, some none⟩)
  | .obj [("name", .str n), ("path", .arr ps), ("start_time", .int t)] =>
    (mapOpt decodePoint ps).map (fun pts => ⟨n, pts, some (some t)⟩)
  | _ => none

/-- Reading the cached array back into a dataset. -/
def decodeDataset : Json → Option (List Storm)
  | .arr ss => mapOpt decodeStorm ss
  | _ => none

/-- One cache file: parseable JSON or a corrupt blob
(`json.JSONDecodeError` on load). -/
inductive CacheEntry where
  | corrupt
  | val (j : Json)

/-- The cache folder: newest write first, path-keyed. -/
abbrev FS := List (String × CacheEntry)

/-- `BASIN_ABBREVIATIONS.get(basin_name, "unknown")` (lines 11-18). -/
def basinAbbr (b : String) : String :=
  if b = "Northern Atlantic" then "na"
  else if b = "Eastern Pacific" then "ep"
  else if b = "Western Pacific" then "wp"
  else if b = "Northern Indian" then "ni"
  else if b = "Southern Indian" then "si"
  else if b = "Southern Pacific" then "sp"
  else "unknown"

/-- `os.path.join(folder_path, f"{basin_abbr}_{year}_data.json")`. -/
def cachePath (folder year basin : String) : String :=
  folder ++ "/" ++ basinAbbr basin ++ "_" ++ year ++ "_data.json"

/-- `save_cache` (lines 94-101): (over)write the dataset's JSON at the
derived path. -/
def save_cache (d : List Storm) (year basin folder : String) (fs : FS) :
    FS :=
  (cachePath folder year basin, CacheEntry.val (encodeDataset d)) :: fs

/-- `load_cache` (lines 103-115): `None` when the file is missing, and
also when `json.load` raises the caught `JSONDecodeError`. -/
def load_cache (year basin folder : String) (fs : FS) : Option Json :=
  match fs.lookup (cachePath folder year basin) with
  | some (CacheEntry.val j) => some j
  | some CacheEntry.corrupt => none
  | none => none

/-- Python truthiness of a loaded JSON value (`if data:`).  A float is
falsy exactly at zero: its text then has no nonzero digit and is not an
`inf`/`nan` word (no letters other than the exponent marker). -/
def jsonTruthy : Json → Bool
  | .null => false
  | .str s => s ≠ ""
  | .int n => n ≠ 0
  | .num s =>
    s.data.any (fun c => '1' ≤ c ∧ c ≤ '9') ||
      s.data.any (fun c => c.isAlpha ∧ c ≠ 'e' ∧ c ≠ 'E')
  | .arr [] => false
  | .arr (_ :: _) => true
  | .obj [] => false
  | .obj (_ :: _) => true

/-- `scrape_typhoon_data` (lines 188-194).  The scrape pipeline behind
`save_data_as_json` needs the network, so its would-be result is the
parameter `scraped`; the second component records whether that pipeline
ran (`False` = the cached value was returned directly). -/
def scrape_typhoon_data (year basin folder : String) (fs : FS)
    (scraped : Option Json) : Option Json × Bool :=
  match load_cache year basin folder fs with
  | some d => if jsonTruthy d then (some d, false) else (scraped, true)
  | none => (scraped, true)

/-! ## Predicates used in the claim statements -/

/-- A normalized datetime cell that is not a bare time: `None`, or a
string containing a space (a `"<date> <time>"` form). -/
def dateOkB (c : Cell) : Bool :=
  match c with
  | none => true
  | some s => hasSpaceChar s

/-- Wind-speed cells `int(speed)` does not raise on: absent (`None`,
`"N / A"`), empty, or numeric text. -/
def speedCellOkB (c : Cell) : Bool :=
  match naFilt c with
  | none => true
  | some s => s = "" || (pyInt s).isSome

/-- Latitude/longitude cells `float(cell)` does not raise on. -/
def floatCellOkB (c : Cell) : Bool :=
  match naFilt c with
  | none => true
  | some s => s = "" || pyFloatOk s

/-- A normalized row the path loop converts without raising. -/
def rowOkB (r : List Cell) : Bool :=
  speedCellOkB (r.getD 5 none) && floatCellOkB (r.getD 3 none) &&
    floatCellOkB (r.getD 4 none)

/-- The `start_time` block does not raise on these rows: either no rows
exist, or the first row's normalized datetime cell is not `None`. -/
def firstCellOk (rows : List (List Cell)) : Prop :=
  match rows with
  | [] => True
  | r0 :: _ => (r0.getD 1 none).isSome = true

/-- A storm page the loop body processes without raising: rows are wide
enough for the indexed reads, every normalized row is convertible, and
when rows exist the first row's normalized datetime cell is not `None`
(else the uncaught `TypeError` of the `start_time` block fires). -/
def pageOkB (p : StormPage) : Bool :=
  match p.table with
  | none => true
  | some t =>
    t.all (fun r => 7 ≤ r.length) &&
      (add_missing_dates_and_empty_cells t).all rowOkB &&
      (match add_missing_dates_and_empty_cells t with
       | [] => true
       | r0 :: _ => (r0.getD 1 none).isSome)

/-! ## List and string helper lemmas -/

theorem getD_eq_get? (l : List α) (i : Nat) (d : α) :
    l.getD i d = (l.get? i).getD d := by
  simp [List.getD_eq_getElem?_getD, List.get?_eq_getElem?]

theorem get?_set_ne (l : List α) (i j : Nat) (a : α) (h : i ≠ j) :
    (l.set i a).get? j = l.get? j := by
  simp [List.get?_eq_getElem?, List.getElem?_set_ne h]

theorem get?_set_self (l : List α) (i : Nat) (a : α) :
    (l.set i a).get? i = (l.get? i).map (fun _ => a) := by
  rw [List.get?_eq_getElem?, List.get?_eq_getElem?, List.getElem?_set_self']
  rfl

theorem get?_map (l : List α) (f : α → β) (i : Nat) :
    (l.map f).get? i = (l.get? i).map f := by
  simp [List.get?_eq_getElem?, List.getElem?_map]

theorem data_append (s t : String) : (s ++ t).data = s.data ++ t.data :=
  String.data_append s t

/-! ## Normalizer lemmas -/

theorem fillRow_get? (lr : Option (List Cell)) :
    ∀ (cs : List String) (i j : Nat),
      (fillRow lr i cs).get? j = (cs.get? j).map (fillCell lr (i + j))
  | [], i, j => by simp [fillRow]
  | c :: cs, i, 0 => by simp [fillRow]
  | c :: cs, i, j + 1 => by
    have h : i + 1 + j = i + (j + 1) := by omega
    simp only [fillRow, List.get?_cons_succ]
    rw [fillRow_get? lr cs (i + 1) j, h]

theorem dtStep_get?_ne (ld : Option String) (row : List String) (i : Nat)
    (h : i ≠ 1) : ((dtStep ld row).2).get? i = row.get? i := by
  cases ld <;> simp only [dtStep] <;> split <;>
    first
      | rfl
      | exact get?_set_ne _ _ _ _ (by omega)

theorem dtStep_get?_na (ld : Option String) (row : List String) (i : Nat)
    (h : row.get? i = some naMark) :
    ((dtStep ld row).2).get? i = some naMark := by
  by_cases hi : i = 1
  · subst hi
    have hdt : row.getD 1 "" = naMark := by rw [getD_eq_get?, h]; rfl
    have hsp : hasSpaceChar naMark = true := by decide
    simp only [dtStep, hdt, hsp, if_true]
    exact h
  · rw [dtStep_get?_ne _ _ _ hi]; exact h

theorem normRows_cons (st : NormState) (r : List String)
    (rs : List (List String)) :
    normRows st (r :: rs) =
      (processRow st r).2 :: normRows (processRow st r).1 rs := rfl

theorem processRow_carry (st : NormState) (lr : List Cell)
    (b : List String) (i : Nat) (hst : st.last_row = some lr) (hi : i ≠ 1)
    (hb : b.get? i = some "") :
    ((processRow st b).2).getD i none = lr.getD i none := by
  have h1 : ((processRow st b).2).get? i = some (lr.getD i none) := by
    show (fillRow st.last_row 0 (dtStep st.last_date b).2).get? i = _
    rw [fillRow_get?, dtStep_get?_ne _ _ _ hi, hb]
    rw [Option.map_some']
    rw [fillCell.eq_def, if_neg (by decide), if_pos rfl, hst]
    simp
  rw [getD_eq_get?, h1]; rfl

theorem normRows_carry :
    ∀ (rows : List (List String)) (st : NormState) (k i : Nat)
      (r : List String), i ≠ 1 → rows.get? (k + 1) = some r →
      r.get? i = some "" →
      ((normRows st rows).getD (k + 1) []).getD i none =
        ((normRows st rows).getD k []).getD i none
  | [], _, k, i, r, _, hr, _ => by simp at hr
  | a :: rs, st, 0, i, r, hi, hr, hc => by
    cases rs with
    | nil => simp at hr
    | cons b rs' =>
      have hb : b = r := by simpa using hr
      subst hb
      simp only [normRows_cons, List.getD_cons_succ, List.getD_cons_zero]
      exact processRow_carry _ _ b i rfl hi hc
  | a :: rs, st, k + 1, i, r, hi, hr, hc => by
    simp only [normRows_cons, List.getD_cons_succ]
    exact normRows_carry rs _ k i r hi (by simpa using hr) hc

theorem normRows_na :
    ∀ (rows : List (List String)) (st : NormState) (k i : Nat)
      (r : List String), rows.get? k = some r → r.get? i = some naMark →
      ((normRows st rows).getD k []).getD i none = none
  | [], _, k, _, r, hr, _ => by simp at hr
  | a :: rs, st, 0, i, r, hr, hc => by
    have ha : a = r := by simpa using hr
    subst ha
    simp only [normRows_cons, List.getD_cons_zero]
    have h1 : ((processRow st a).2).get? i = some none := by
      show (fillRow st.last_row 0 (dtStep st.last_date a).2).get? i = _
      rw [fillRow_get?, dtStep_get?_na _ _ _ hc]
      rw [Option.map_some']
      rw [fillCell.eq_def, if_pos rfl]
    rw [getD_eq_get?, h1]; rfl
  | a :: rs, st, k + 1, i, r, hr, hc => by
    simp only [normRows_cons, List.getD_cons_succ]
    exact normRows_na rs _ k i r (by simpa using hr) hc

theorem markFirstRow_get?_succ (data : List (List String)) (k : Nat) :
    (markFirstRow data).get? (k + 1) = data.get? (k + 1) := by
  cases data <;> simp [markFirstRow]

theorem markFirstRow_na (data : List (List String)) (k i : Nat)
    (r : List String) (h : data.get? k = some r)
    (hc : r.get? i = some naMark) :
    ∃ r', (markFirstRow data).get? k = some r' ∧
      r'.get? i = some naMark := by
  cases data with
  | nil => simp at h
  | cons d ds =>
    cases k with
    | zero =>
      have hd : d = r := by simpa using h
      subst hd
      refine ⟨d.map (fun c => if c = "" then naMark else c),
        by simp [markFirstRow], ?_⟩
      rw [get?_map, hc, Option.map_some']
      rw [if_neg (by decide)]
    | succ k' => exact ⟨r, by simpa [markFirstRow] using h, hc⟩

/-- C1: normalization carries the last explicit value of a (non-datetime)
column forward transitively through consecutive empty cells — column
values `[5, "", ""]` become `[5, 5, 5]` and `[5, "", "N / A", 7]` become
`[5, 5, null, 7]` — an empty cell always receives the previous *already
normalized* row's cell (whence transitivity), and a cell equal to the
`"N / A"` marker is normalized to `null` in every row and column. -/
theorem C1_carry_forward :
    (add_missing_dates_and_empty_cells
        [["a", "2000-01-01 00:00:00", "5"],
         ["a", "2000-01-01 06:00:00", ""],
         ["a", "2000-01-01 12:00:00", ""]] =
      [[some "a", some "2000-01-01 00:00:00", some "5"],
       [some "a", some "2000-01-01 06:00:00", some "5"],
       [some "a", some "2000-01-01 12:00:00", some "5"]]) ∧
    (add_missing_dates_and_empty_cells
        [["a", "2000-01-01 00:00:00", "5"],
         ["a", "2000-01-01 06:00:00", ""],
         ["a", "2000-01-01 12:00:00", "N / A"],
         ["a", "2000-01-01 18:00:00", "7"]] =
      [[some "a", some "2000-01-01 00:00:00", some "5"],
       [some "a", some "2000-01-01 06:00:00", some "5"],
       [some "a", some "2000-01-01 12:00:00", none],
       [some "a", some "2000-01-01 18:00:00", some "7"]]) ∧
    (∀ (data : List (List String)) (w k i : Nat) (r : List String),
      (∀ r' ∈ data, r'.length = w) → 2 ≤ w → i < w → i ≠ 1 →
      data.get? (k + 1) = some r → r.get? i = some "" →
      ((add_missing_dates_and_empty_cells data).getD (k + 1) []).getD i
          none =
        ((add_missing_dates_and_empty_cells data).getD k []).getD i
          none) ∧
    (∀ (data : List (List String)) (k i : Nat) (r : List String),
      data.get? k = some r → r.get? i = some naMark →
      ((add_missing_dates_and_empty_cells data).getD k []).getD i none =
        none) := by
  refine ⟨by decide, by decide, ?_, ?_⟩
  · intro data w k i r _ _ _ hi hr hc
    exact normRows_carry (markFirstRow data) _ k i r hi
      (by rw [markFirstRow_get?_succ]; exact hr) hc
  · intro data k i r hr hc
    obtain ⟨r', hr', hc'⟩ := markFirstRow_na data k i r hr hc
    exact normRows_na (markFirstRow data) _ k i r' hr' hc'

/-- Witness for C1 at concrete inputs: in a two-row table the empty
third-column cell of the second row inherits the first row's `"5"`, and
an `"N / A"` cell of a one-row table comes out `null`. -/
theorem C1_carry_forward_witness :
    ((add_missing_dates_and_empty_cells
        [["a", "b", "5"], ["c", "d", ""]]).getD 1 []).getD 2 none =
      ((add_missing_dates_and_empty_cells
        [["a", "b", "5"], ["c", "d", ""]]).getD 0 []).getD 2 none ∧
    ((add_missing_dates_and_empty_cells
        [["a", "N / A", "x"]]).getD 0 []).getD 1 none = none :=
  ⟨C1_carry_forward.2.2.1 [["a", "b", "5"], ["c", "d", ""]] 3 0 2
      ["c", "d", ""] (by decide) (by decide) (by decide) (by decide)
      (by decide) (by decide),
    C1_carry_forward.2.2.2 [["a", "N / A", "x"]] 0 1 ["a", "N / A", "x"]
      (by decide) (by decide)⟩

/-! ## Datetime normalization lemmas (claim C3) -/

theorem hasSpace_mid (d dt : String) :
    hasSpaceChar (d ++ " " ++ dt) = true := by
  have h1 : (" ".data.any fun c => decide (c = ' ')) = true := by decide
  simp [hasSpaceChar, data_append, List.any_append, h1]

theorem processRow_dateOk (st : NormState) (row : List String)
    (h : st.last_date.isSome = true ∨
      hasSpaceChar (row.getD 1 "") = true) :
    dateOkB (((processRow st row).2).getD 1 none) = true ∧
      (processRow st row).1.last_date.isSome = true := by
  have hout : (processRow st row).2 =
      fillRow st.last_row 0 (dtStep st.last_date row).2 := rfl
  have hld : (processRow st row).1.last_date = (dtStep st.last_date row).1 :=
    rfl
  by_cases hsp : hasSpaceChar (row.getD 1 "") = true
  · have hstep : dtStep st.last_date row =
        (some (firstWsToken (row.getD 1 "")), row) := by
      rw [dtStep.eq_def, if_pos hsp]
    constructor
    · rw [hout, hstep, getD_eq_get?, fillRow_get?]
      cases hr : row.get? 1 with
      | none => rfl
      | some c =>
        have hc : c = row.getD 1 "" := by rw [getD_eq_get?, hr]; rfl
        rw [Option.map_some', fillCell.eq_def]
        by_cases hna : c = naMark
        · rw [if_pos hna]; rfl
        · rw [if_neg hna]
          have hne : ¬ c = "" := by
            intro he
            rw [← hc, he] at hsp
            exact absurd hsp (by decide)
          rw [if_neg hne]
          show dateOkB (some c) = true
          show hasSpaceChar c = true
          rw [hc]; exact hsp
    · rw [hld, hstep]; rfl
  · rcases h with hld1 | hld1
    · cases hd : st.last_date with
      | none => rw [hd] at hld1; exact absurd hld1 (by decide)
      | some d =>
        have hstep : dtStep st.last_date row =
            (st.last_date, row.set 1 (d ++ " " ++ (row.getD 1 ""))) := by
          rw [dtStep.eq_def, if_neg hsp, hd]
        constructor
        · rw [hout, hstep, getD_eq_get?, fillRow_get?, get?_set_self]
          cases hr : row.get? 1 with
          | none => rfl
          | some c =>
            rw [Option.map_some', Option.map_some', fillCell.eq_def]
            have hspx : hasSpaceChar (d ++ " " ++ (row.getD 1 "")) = true :=
              hasSpace_mid _ _
            by_cases hna : d ++ " " ++ (row.getD 1 "") = naMark
            · rw [if_pos hna]; rfl
            · rw [if_neg hna]
              have hne : ¬ d ++ " " ++ (row.getD 1 "") = "" := by
                intro he
                rw [he] at hspx
                exact absurd hspx (by decide)
              rw [if_neg hne]
              show dateOkB (some _) = true
              exact hspx
        · rw [hld, hstep, hd]; rfl
    · exact absurd hld1 hsp

theorem normRows_dateOk_of_lastdate :
    ∀ (rows : List (List String)) (st : NormState),
      st.last_date.isSome = true → ∀ k,
      dateOkB (((normRows st rows).getD k []).getD 1 none) = true
  | [], _, _, k => by cases k <;> rfl
  | a :: rs, st, h, 0 => by
    simp only [normRows_cons, List.getD_cons_zero]
    exact (processRow_dateOk st a (Or.inl h)).1
  | a :: rs, st, h, k + 1 => by
    simp only [normRows_cons, List.getD_cons_succ]
    exact normRows_dateOk_of_lastdate rs _
      (processRow_dateOk st a (Or.inl h)).2 k

theorem normRows_dateOk :
    ∀ (rows : List (List String)) (st : NormState) (j k : Nat), j ≤ k →
      hasSpaceChar ((rows.getD j []).getD 1 "") = true →
      dateOkB (((normRows st rows).getD k []).getD 1 none) = true
  | [], _, j, k, _, hsp => by
    simp only [List.getD] at hsp
    exact absurd (by simpa using hsp) (by decide)
  | a :: rs, st, 0, 0, _, hsp => by
    simp only [List.getD_cons_zero] at hsp
    simp only [normRows_cons, List.getD_cons_zero]
    exact (processRow_dateOk st a (Or.inr hsp)).1
  | a :: rs, st, 0, k + 1, _, hsp => by
    simp only [List.getD_cons_zero] at hsp
    simp only [normRows_cons, List.getD_cons_succ]
    exact normRows_dateOk_of_lastdate rs _
      (processRow_dateOk st a (Or.inr hsp)).2 k
  | a :: rs, st, j + 1, k + 1, hjk, hsp => by
    simp only [List.getD_cons_succ] at hsp
    simp only [normRows_cons, List.getD_cons_succ]
    exact normRows_dateOk rs _ j k (by omega) hsp

/-- C3 counterexample: a bare time with no date component survives
normalization when no running date precedes it — for the one-row table
`[["x", "12:00"]]` the normalized datetime cell is the bare time
`"12:00"`, which contains no space (no date was added or inherited). -/
theorem C3_bare_time_survives :
    add_missing_dates_and_empty_cells [["x", "12:00"]] =
      [[some "x", some "12:00"]] ∧
    hasSpaceChar "12:00" = false := by
  exact ⟨by decide, by decide⟩

/-- C3 amended: once some row at or before index `k` (counted after the
first-row placeholder rewrite) has a datetime cell containing a space,
row `k`'s normalized datetime cell is `None` or a `"<date> <time>"`
string containing a space; before any such row exists, a bare time is
left as-is. -/
theorem C3_datetime_normalized (data : List (List String)) (j k : Nat)
    (_hw : ∀ r ∈ data, 2 ≤ r.length) (hjk : j ≤ k)
    (hsp : hasSpaceChar (((markFirstRow data).getD j []).getD 1 "") =
      true) :
    dateOkB
      (((add_missing_dates_and_empty_cells data).getD k []).getD 1
        none) = true :=
  normRows_dateOk (markFirstRow data) ⟨none, none⟩ j k hjk hsp

/-- Witness for C3: the first row carries a full datetime, so the bare
time `"12:00"` of the second row is rewritten with the running date. -/
theorem C3_datetime_normalized_witness :
    dateOkB
      (((add_missing_dates_and_empty_cells
          [["a", "2000-01-01 06:00"], ["b", "12:00"]]).getD 1 []).getD 1
        none) = true :=
  C3_datetime_normalized [["a", "2000-01-01 06:00"], ["b", "12:00"]] 0 1
    (by decide) (by decide) (by decide)

/-! ## Row-conversion lemmas -/

theorem speedStep_spec (c : Cell) (sp : String × Nat)
    (h : speedStep c = .ok sp) :
    sp.1 = renderSpeed c ∧ sp.2 = cellClass c := by
  unfold speedStep at h
  unfold renderSpeed cellClass
  cases hnc : naFilt c with
  | none =>
    rw [hnc] at h
    injection h with h'
    subst h'
    exact ⟨rfl, rfl⟩
  | some s =>
    rw [hnc] at h
    by_cases hs : s = ""
    · simp only [if_pos hs] at h
      injection h with h'
      subst h'
      exact ⟨by simp [hs], by simp [hs]⟩
    · simp only [if_neg hs] at h
      cases hn : pyInt s with
      | none => rw [hn] at h; exact (Except.noConfusion h)
      | some n =>
        rw [hn] at h
        injection h with h'
        subst h'
        exact ⟨by simp [hs, hn], by simp [hs, hn]⟩

theorem rowToPoint_spec (month : Option String) (row : List Cell)
    (pt : TrackPoint) (h : rowToPoint month row = .ok (some pt)) :
    pt.speed = renderSpeed (row.getD 5 none) ∧
      pt.cls = cellClass (row.getD 5 none) ∧
      pt.pressure = renderPressure (row.getD 6 none) ∧
      ∃ t, timeStep month (row.getD 1 none) = .ok (some t) ∧
        pt.time = t := by
  unfold rowToPoint at h
  cases ht : timeStep month (row.getD 1 none) with
  | error e => rw [ht] at h; simp at h
  | ok t? =>
    rw [ht] at h
    cases t? with
    | none => simp at h
    | some time =>
      cases hsp : speedStep (row.getD 5 none) with
      | error e => rw [hsp] at h; simp at h
      | ok sp =>
        rw [hsp] at h
        cases hla : floatStep (row.getD 3 none) "lat" with
        | error e => rw [hla] at h; simp at h
        | ok lat =>
          rw [hla] at h
          cases hlo : floatStep (row.getD 4 none) "long" with
          | error e => rw [hlo] at h; simp at h
          | ok lng =>
            rw [hlo] at h
            simp only [Except.ok.injEq, Option.some.injEq] at h
            subst h
            exact ⟨(speedStep_spec _ _ hsp).1, (speedStep_spec _ _ hsp).2,
              rfl, time, rfl, rfl⟩

theorem timeStep_keep (month : Option String) (c : Cell)
    (h : c = none ∨ ∃ s, c = some s ∧ pyStrptime s = none) :
    timeStep month c = .ok (some c) := by
  rcases h with rfl | ⟨s, rfl, hp⟩
  · rfl
  · unfold timeStep
    by_cases hs : s = ""
    · simp only [if_pos hs]
    · simp only [if_neg hs, hp]

theorem timeStep_ok (month : Option String) (c : Cell) :
    ∃ t?, timeStep month c = .ok t? := by
  unfold timeStep
  cases c with
  | none => exact ⟨_, rfl⟩
  | some s =>
    by_cases hs : s = ""
    · simp only [if_pos hs]
      exact ⟨_, rfl⟩
    · simp only [if_neg hs]
      cases hp : pyStrptime s with
      | none => exact ⟨_, rfl⟩
      | some dt =>
        cases month with
        | none => exact ⟨_, rfl⟩
        | some ms =>
          by_cases hms : ms = ""
          · simp only [if_pos hms]
            exact ⟨_, rfl⟩
          · simp only [if_neg hms]
            cases hi : pyInt ms with
            | none => exact ⟨_, rfl⟩
            | some mv =>
              by_cases he : (dt.month : Int) = mv
              · simp only [if_pos he]
                exact ⟨_, rfl⟩
              · simp only [if_neg he]
                exact ⟨_, rfl⟩

theorem timeStep_caught_month (ms s : String) (dt : DT) (hms : ms ≠ "")
    (hi : pyInt ms = none) (hp : pyStrptime s = some dt) :
    timeStep (some ms) (some s) = .ok (some (some s)) := by
  have hs : ¬ s = "" := by
    intro he
    rw [he, show pyStrptime "" = none from by decide] at hp
    exact Option.noConfusion hp
  unfold timeStep
  simp only [if_neg hs, hp, if_neg hms, hi]

theorem speedStep_ok (c : Cell) (h : speedCellOkB c = true) :
    ∃ sp, speedStep c = .ok sp := by
  unfold speedStep
  unfold speedCellOkB at h
  cases hnc : naFilt c with
  | none => exact ⟨_, rfl⟩
  | some s =>
    rw [hnc] at h
    by_cases hs : s = ""
    · simp only [if_pos hs]
      exact ⟨_, rfl⟩
    · simp only [if_neg hs]
      simp only [Bool.or_eq_true] at h
      rcases h with h | h
      · exact absurd (of_decide_eq_true h) hs
      · cases hi : pyInt s with
        | none => rw [hi] at h; simp at h
        | some n =>
          simp only [hi]
          exact ⟨_, rfl⟩

theorem floatStep_ok (c : Cell) (label : String)
    (h : floatCellOkB c = true) : ∃ v, floatStep c label = .ok v := by
  unfold floatStep
  unfold floatCellOkB at h
  cases hnc : naFilt c with
  | none => exact ⟨_, rfl⟩
  | some s =>
    rw [hnc] at h
    by_cases hs : s = ""
    · simp only [if_pos hs]
      exact ⟨_, rfl⟩
    · simp only [if_neg hs]
      simp only [Bool.or_eq_true] at h
      rcases h with h | h
      · exact absurd (of_decide_eq_true h) hs
      · simp only [if_pos h]
        exact ⟨_, rfl⟩

theorem rowToPoint_ok (month : Option String) (row : List Cell)
    (hr : rowOkB row = true) :
    ∃ p?, rowToPoint month row = .ok p? := by
  unfold rowOkB at hr
  rw [Bool.and_eq_true, Bool.and_eq_true] at hr
  obtain ⟨⟨hsp, hla⟩, hlo⟩ := hr
  unfold rowToPoint
  obtain ⟨t?, ht⟩ := timeStep_ok month (row.getD 1 none)
  rw [ht]
  cases t? with
  | none => exact ⟨_, rfl⟩
  | some time =>
    obtain ⟨sp, hs⟩ := speedStep_ok _ hsp
    rw [hs]
    obtain ⟨lat, hl⟩ := floatStep_ok _ "lat" hla
    rw [hl]
    obtain ⟨lng, hg⟩ := floatStep_ok _ "long" hlo
    rw [hg]
    exact ⟨_, rfl⟩

/-- C2: the derived intensity class is a pure function of the wind-speed
cell through the fixed thresholds `<34→0, 34–63→1, 64–82→2, 83–95→3,
96–112→4, ≥113→5`; an absent (`None`/`"N / A"`/empty) speed yields
class 0; and the class is always in `{0,…,5}`. -/
theorem C2_intensity_class :
    (∀ n : Int,
      (n < 34 → speedClass n = 0) ∧
      (34 ≤ n → n ≤ 63 → speedClass n = 1) ∧
      (64 ≤ n → n ≤ 82 → speedClass n = 2) ∧
      (83 ≤ n → n ≤ 95 → speedClass n = 3) ∧
      (96 ≤ n → n ≤ 112 → speedClass n = 4) ∧
      (113 ≤ n → speedClass n = 5)) ∧
    (∀ (month : Option String) (row : List Cell) (pt : TrackPoint),
      rowToPoint month row = .ok (some pt) →
      pt.cls = cellClass (row.getD 5 none)) ∧
    (∀ c : Cell, cellClass c ≤ 5) ∧
    cellClass none = 0 ∧ cellClass (some "") = 0 ∧
    cellClass (some naMark) = 0 := by
  refine ⟨?_, ?_, ?_, rfl, rfl, by decide⟩
  · intro n
    refine ⟨?_, ?_, ?_, ?_, ?_, ?_⟩ <;>
      (intro h; unfold speedClass; split_ifs <;> omega)
  · intro month row pt h
    exact (rowToPoint_spec month row pt h).2.1
  · intro c
    unfold cellClass
    cases hnc : naFilt c with
    | none => decide
    | some s =>
      by_cases hs : s = ""
      · simp [hs]
      · simp only [if_neg hs]
        cases hi : pyInt s with
        | none => decide
        | some n =>
          show speedClass n ≤ 5
          unfold speedClass
          split_ifs <;> omega

/-- Witness for C2 at a concrete row: a wind speed of 100 knots yields
class 4, and that class is exactly `cellClass` of the speed cell. -/
theorem C2_intensity_class_witness :
    rowToPoint none [none, none, none, none, none, some "100", none] =
      Except.ok (some ⟨none, none, none, "100", "> 1008", 4⟩) ∧
    (⟨none, none, none, "100", "> 1008", 4⟩ : TrackPoint).cls =
      cellClass
        ([none, none, none, none, none, some "100", none].getD 5 none) :=
  ⟨by rfl,
    C2_intensity_class.2.1 none
      [none, none, none, none, none, some "100", none]
      ⟨none, none, none, "100", "> 1008", 4⟩ (by rfl)⟩

/-- C8 counterexample: the wind-speed cell `"0"` holds a present numeric
speed, but the stored speed text is `"< 35"`, not its string form `"0"`
(after `speed = int(speed)` the integer `0` is falsy, so
`str(speed) if speed else "< 35"` takes the absent branch). -/
theorem C8_speed_zero_not_rendered :
    rowToPoint none [none, none, none, none, none, some "0", some "1000"] =
      Except.ok (some ⟨none, none, none, "< 35", "1000", 0⟩) ∧
    ("< 35" : String) ≠ "0" :=
  ⟨by rfl, by decide⟩

/-- C8 amended: a present wind speed parsing to a *nonzero* integer is
stored as that integer's string form and an absent or zero speed as
`"< 35"`; a present pressure is stored as its text unchanged and an
absent pressure as `"> 1008"`. -/
theorem C8_stored_texts :
    (∀ (month : Option String) (row : List Cell) (pt : TrackPoint),
      rowToPoint month row = .ok (some pt) →
      pt.speed = renderSpeed (row.getD 5 none) ∧
        pt.pressure = renderPressure (row.getD 6 none)) ∧
    (∀ c : Cell, naFilt c = none →
      renderSpeed c = "< 35" ∧ renderPressure c = "> 1008") ∧
    renderSpeed (some "") = "< 35" ∧ renderSpeed (some "0") = "< 35" ∧
    (∀ (s : String) (n : Int), s ≠ "" → s ≠ naMark → pyInt s = some n →
      n ≠ 0 → renderSpeed (some s) = toString n) ∧
    (∀ s : String, s ≠ "" → s ≠ naMark →
      renderPressure (some s) = s) := by
  refine ⟨?_, ?_, by decide, by decide, ?_, ?_⟩
  · intro month row pt h
    exact ⟨(rowToPoint_spec month row pt h).1,
      (rowToPoint_spec month row pt h).2.2.1⟩
  · intro c hc
    unfold renderSpeed renderPressure
    rw [hc]
    exact ⟨rfl, rfl⟩
  · intro s n hs hna hn hnz
    unfold renderSpeed
    simp only [naFilt, if_neg hna, if_neg hs, hn, if_neg hnz]
  · intro s hs hna
    unfold renderPressure
    simp only [naFilt, if_neg hna, if_neg hs]

/-- Witness for C8 amended: speed `"45"` is stored as `"45"`, pressure
`"0995"` is kept verbatim. -/
theorem C8_stored_texts_witness :
    rowToPoint none
        [none, none, none, none, none, some "45", some "0995"] =
      Except.ok (some ⟨none, none, none, "45", "0995", 1⟩) ∧
    (⟨none, none, none, "45", "0995", 1⟩ : TrackPoint).speed =
      renderSpeed (some "45") ∧
    (⟨none, none, none, "45", "0995", 1⟩ : TrackPoint).pressure =
      renderPressure (some "0995") :=
  ⟨by rfl,
    (C8_stored_texts.1 none
      [none, none, none, none, none, some "45", some "0995"]
      ⟨none, none, none, "45", "0995", 1⟩ (by rfl)).1,
    (C8_stored_texts.1 none
      [none, none, none, none, none, some "45", some "0995"]
      ⟨none, none, none, "45", "0995", 1⟩ (by rfl)).2⟩

/-- C10: a row whose normalized datetime cell is `None`, or a non-`None`
cell the fixed pattern cannot parse, is never excluded by the month
filter: the row is converted (given convertible speed/lat/long cells)
and its datetime text is kept unchanged; `int(month)` is not even
evaluated for such rows. -/
theorem C10_unparsed_time_kept (month : Option String) (row : List Cell)
    (hsp : speedCellOkB (row.getD 5 none) = true)
    (hla : floatCellOkB (row.getD 3 none) = true)
    (hlo : floatCellOkB (row.getD 4 none) = true)
    (ht : row.getD 1 none = none ∨
      ∃ s, row.getD 1 none = some s ∧ pyStrptime s = none) :
    ∃ pt, rowToPoint month row = .ok (some pt) ∧
      pt.time = row.getD 1 none := by
  unfold rowToPoint
  rw [timeStep_keep month _ ht]
  obtain ⟨sp, hs⟩ := speedStep_ok _ hsp
  rw [hs]
  obtain ⟨lat, hl⟩ := floatStep_ok _ "lat" hla
  rw [hl]
  obtain ⟨lng, hg⟩ := floatStep_ok _ "long" hlo
  rw [hg]
  exact ⟨_, rfl, rfl⟩

/-- Witness for C10: with month filter "6" an unparseable datetime
`"garbage"` is appended unchanged rather than excluded. -/
theorem C10_unparsed_time_kept_witness :
    ∃ pt,
      rowToPoint (some "6")
          [none, some "garbage", none, none, none, none, none] =
        Except.ok (some pt) ∧
      pt.time =
        ([none, some "garbage", none, none, none, none,
          none].getD 1 none) :=
  C10_unparsed_time_kept (some "6")
    [none, some "garbage", none, none, none, none, none]
    (by decide) (by decide) (by decide)
    (Or.inr ⟨"garbage", by decide, by decide⟩)

/-! ## Month filtering and storm assembly lemmas -/

theorem timeStep_skip (ms : String) (s : String) (dt : DT) (mv : Int)
    (hms : ms ≠ "") (hint : pyInt ms = some mv)
    (hp : pyStrptime s = some dt) (hne : (dt.month : Int) ≠ mv) :
    timeStep (some ms) (some s) = .ok none := by
  have hs : ¬ s = "" := by
    intro he
    rw [he, show pyStrptime "" = none from by decide] at hp
    exact Option.noConfusion hp
  unfold timeStep
  simp only [if_neg hs, hp, if_neg hms, hint, if_neg hne]

theorem rowToPoint_excluded (ms : String) (mv : Int) (row : List Cell)
    (s : String) (dt : DT) (hms : ms ≠ "") (hint : pyInt ms = some mv)
    (hc : row.getD 1 none = some s) (hp : pyStrptime s = some dt)
    (hne : (dt.month : Int) ≠ mv) :
    rowToPoint (some ms) row = .ok none := by
  unfold rowToPoint
  rw [hc, timeStep_skip ms s dt mv hms hint hp hne]

theorem pathPoints_erase (month : Option String) (r : List Cell)
    (hr : rowToPoint month r = .ok none) :
    ∀ (pre post : List (List Cell)),
      pathPoints month (pre ++ r :: post) =
        pathPoints month (pre ++ post)
  | [], post => by
    show pathPoints month (r :: post) = pathPoints month post
    have hstep : pathPoints month (r :: post) =
        match rowToPoint month r with
        | .error e => .error e
        | .ok p? =>
          match pathPoints month post with
          | .error e => .error e
          | .ok rest =>
            .ok (match p? with | some p => p :: rest | none => rest) :=
      rfl
    rw [hstep, hr]
    cases hpost : pathPoints month post <;> rfl
  | a :: pre, post => by
    show pathPoints month (a :: (pre ++ r :: post)) =
      pathPoints month (a :: (pre ++ post))
    unfold pathPoints
    rw [pathPoints_erase month r hr pre post]

theorem buildStorm_start (month : Option String) (name : String)
    (processed : List (List Cell)) (s : Storm)
    (h : buildStorm month name processed = .ok s) :
    startTimeOf processed = .ok s.start_time := by
  unfold buildStorm at h
  cases hp : pathPoints month processed with
  | error e => rw [hp] at h; simp at h
  | ok pts =>
    rw [hp] at h
    cases hst : startTimeOf processed with
    | error e => rw [hst] at h; simp at h
    | ok st =>
      rw [hst] at h
      injection h with h'
      subst h'
      rfl

theorem save_cons_included (month : Option String) (p : StormPage)
    (ps : List StormPage) (h : String) (t : List (List String)) (s : Storm)
    (rest : List Storm) (hh : p.heading = some h) (hhe : h ≠ "")
    (htab : p.table = some t) (hte : t ≠ [])
    (hbs : buildStorm month (pyNameOf h)
      (add_missing_dates_and_empty_cells t) = .ok s)
    (hrest : save_data_as_json month ps = .ok rest) :
    save_data_as_json month (p :: ps) = .ok (s :: rest) := by
  unfold save_data_as_json
  unfold processPage
  simp only [hh, if_neg hhe, htab, if_neg hte, hbs, hrest]

/-- C4: for a month filter `m` (given as the string the code receives),
a row whose datetime cell parses to a month different from `m` is
excluded from the output path entirely — the path equals the path built
without that row; `start_time` comes from `startTimeOf`, a function of
the unfiltered normalized rows alone; and a storm is included in the
output dataset irrespective of its (possibly empty) path. -/
theorem C4_month_filter :
    (∀ (ms : String) (mv : Int) (row : List Cell) (s : String) (dt : DT)
      (pre post : List (List Cell)),
      1 ≤ mv → mv ≤ 12 → ms ≠ "" → pyInt ms = some mv →
      row.getD 1 none = some s → pyStrptime s = some dt →
      (dt.month : Int) ≠ mv →
      rowToPoint (some ms) row = .ok none ∧
        pathPoints (some ms) (pre ++ row :: post) =
          pathPoints (some ms) (pre ++ post)) ∧
    (∀ (month : Option String) (name : String)
      (processed : List (List Cell)) (s : Storm),
      buildStorm month name processed = .ok s →
      startTimeOf processed = .ok s.start_time) ∧
    (∀ (month : Option String) (p : StormPage) (ps : List StormPage)
      (h : String) (t : List (List String)) (s : Storm)
      (rest : List Storm),
      p.heading = some h → h ≠ "" → p.table = some t → t ≠ [] →
      buildStorm month (pyNameOf h)
        (add_missing_dates_and_empty_cells t) = .ok s →
      save_data_as_json month ps = .ok rest →
      save_data_as_json month (p :: ps) = .ok (s :: rest)) := by
  refine ⟨?_, buildStorm_start, save_cons_included⟩
  intro ms mv row s dt pre post _ _ hms hint hc hp hne
  have hex := rowToPoint_excluded ms mv row s dt hms hint hc hp hne
  exact ⟨hex, pathPoints_erase (some ms) row hex pre post⟩

/-- Witness for C4: with month filter `"6"` a January row is excluded
from the path, yet the storm is still built, with an empty path and a
start time computed from that same unfiltered first row. -/
theorem C4_month_filter_witness :
    (rowToPoint (some "6")
        [none, some "2000-01-01 00:00:00", none, none, none, none,
          none] = .ok none ∧
      pathPoints (some "6")
          ([] ++ [none, some "2000-01-01 00:00:00", none, none, none,
            none, none] :: []) =
        pathPoints (some "6") ([] ++ [])) ∧
    save_data_as_json (some "6")
        ({ heading := some "TY X Y",
           table := some
             [["h", "2000-01-01 00:00:00", "x", "1.0", "2.0", "45",
               "990"]] } :: []) =
      .ok ({ name := "X", path := [],
             start_time := some (some 946684800) } :: []) :=
  ⟨C4_month_filter.1 "6" 6
      [none, some "2000-01-01 00:00:00", none, none, none, none, none]
      "2000-01-01 00:00:00" ⟨2000, 1, 1, 0, 0, 0⟩ [] [] (by decide)
      (by decide) (by decide) (by decide) (by decide) (by decide)
      (by decide),
    C4_month_filter.2.2 (some "6")
      { heading := some "TY X Y",
        table := some
          [["h", "2000-01-01 00:00:00", "x", "1.0", "2.0", "45",
            "990"]] }
      [] "TY X Y"
      [["h", "2000-01-01 00:00:00", "x", "1.0", "2.0", "45", "990"]]
      { name := "X", path := [], start_time := some (some 946684800) }
      [] (by rfl) (by decide) (by rfl) (by decide) (by rfl) (by rfl)⟩

/-- C7 counterexample: when the first normalized row's datetime cell is
`None` (an empty first-row datetime becomes the `"N / A"` marker and
then `None`), the `start_time` block calls `strptime(None, …)`, which
raises an uncaught `TypeError` instead of yielding a null start time —
the whole scrape of this storm page fails. -/
theorem C7_none_start_time_raises :
    save_data_as_json none
        [{ heading := some "TY HALONG 2000",
           table := some [["", "", "", "", "", "", ""]] }] =
      Except.error "TypeError: strptime(None)" := by rfl

/-- C7 amended: `start_time` is computed by `startTimeOf` from the
unfiltered normalized rows: when the first row's datetime cell is a
string that parses under `"%Y-%m-%d %H:%M:%S"`, it is the epoch seconds
of that datetime with seconds truncated to zero; when it is a string
that fails to parse, it is null; but when it is `None`, the code raises
an uncaught `TypeError` (it is not null); and a storm built without
error always carries `startTimeOf` of its rows. -/
theorem C7_start_time :
    (∀ (r0 : List Cell) (rest : List (List Cell)) (s0 : String) (dt : DT),
      r0.getD 1 none = some s0 → pyStrptime s0 = some dt →
      startTimeOf (r0 :: rest) =
        .ok (some (some (epochSecs { dt with second := 0 })))) ∧
    (∀ (r0 : List Cell) (rest : List (List Cell)) (s0 : String),
      r0.getD 1 none = some s0 → pyStrptime s0 = none →
      startTimeOf (r0 :: rest) = .ok (some none)) ∧
    (∀ (r0 : List Cell) (rest : List (List Cell)),
      r0.getD 1 none = none →
      startTimeOf (r0 :: rest) = .error "TypeError: strptime(None)") ∧
    (∀ (month : Option String) (name : String)
      (processed : List (List Cell)) (s : Storm),
      buildStorm month name processed = .ok s →
      startTimeOf processed = .ok s.start_time) := by
  refine ⟨?_, ?_, ?_, buildStorm_start⟩
  · intro r0 rest s0 dt hc hp
    unfold startTimeOf
    simp only [hc, hp]
  · intro r0 rest s0 hc hp
    unfold startTimeOf
    simp only [hc, hp]
  · intro r0 rest hc
    unfold startTimeOf
    simp only [hc]

/-- Witness for C7: seconds are truncated (`00:00:30` and `00:00:00`
give the same epoch start), and an unparseable first cell gives a null
start time. -/
theorem C7_start_time_witness :
    startTimeOf
        [[none, some "2000-01-01 00:00:30", none, none, none, none,
          none]] = .ok (some (some 946684800)) ∧
    startTimeOf [[none, some "garbage"]] = .ok (some none) :=
  ⟨by
    have h := C7_start_time.1
      [none, some "2000-01-01 00:00:30", none, none, none, none, none]
      [] "2000-01-01 00:00:30" ⟨2000, 1, 1, 0, 0, 30⟩ (by decide)
      (by decide)
    rw [h]
    rfl,
    C7_start_time.2.1 [none, some "garbage"] [] "garbage"
      (by decide) (by decide)⟩

/-! ## Pipeline totality lemmas (claim C9) -/

theorem pathPoints_ok (month : Option String) :
    ∀ rows : List (List Cell), (∀ r ∈ rows, rowOkB r = true) →
      ∃ pts, pathPoints month rows = .ok pts
  | [], _ => ⟨[], rfl⟩
  | r :: rs, h => by
    obtain ⟨p?, hp⟩ := rowToPoint_ok month r (h r (by simp))
    obtain ⟨pts, hps⟩ :=
      pathPoints_ok month rs (fun x hx => h x (by simp [hx]))
    unfold pathPoints
    rw [hp, hps]
    cases p? <;> exact ⟨_, rfl⟩

theorem startTimeOf_ok (rows : List (List Cell))
    (h : firstCellOk rows) : ∃ st, startTimeOf rows = .ok st := by
  cases rows with
  | nil => exact ⟨none, rfl⟩
  | cons r0 rest =>
    replace h : (r0.getD 1 none).isSome = true := h
    cases hc : r0.getD 1 none with
    | none => rw [hc] at h; simp at h
    | some s =>
      unfold startTimeOf
      simp only [hc]
      cases hp : pyStrptime s with
      | none => exact ⟨_, rfl⟩
      | some dt => exact ⟨_, rfl⟩

theorem buildStorm_ok (month : Option String) (name : String)
    (processed : List (List Cell))
    (hr : ∀ r ∈ processed, rowOkB r = true)
    (hf : firstCellOk processed) :
    ∃ s, buildStorm month name processed = .ok s := by
  obtain ⟨pts, hp⟩ := pathPoints_ok month processed hr
  obtain ⟨st, hs⟩ := startTimeOf_ok processed hf
  unfold buildStorm
  rw [hp, hs]
  exact ⟨_, rfl⟩

theorem processPage_ok (month : Option String) (p : StormPage)
    (hp : pageOkB p = true) :
    ∃ s?, processPage month p = .ok s? := by
  unfold processPage
  cases hh : p.heading with
  | none => exact ⟨_, rfl⟩
  | some h =>
    by_cases hhe : h = ""
    · simp only [if_pos hhe]
      exact ⟨_, rfl⟩
    · simp only [if_neg hhe]
      cases ht : p.table with
      | none => exact ⟨_, rfl⟩
      | some t =>
        by_cases hte : t = []
        · simp only [if_pos hte]
          exact ⟨_, rfl⟩
        · simp only [if_neg hte]
          unfold pageOkB at hp
          rw [ht] at hp
          rw [Bool.and_eq_true, Bool.and_eq_true] at hp
          obtain ⟨⟨_, hrows⟩, hfirst⟩ := hp
          have hrows' : ∀ r ∈ add_missing_dates_and_empty_cells t,
              rowOkB r = true := by
            rw [List.all_eq_true] at hrows
            exact hrows
          have hf : firstCellOk (add_missing_dates_and_empty_cells t) := by
            unfold firstCellOk
            cases hadd : add_missing_dates_and_empty_cells t with
            | nil => trivial
            | cons r0 rest =>
              rw [hadd] at hfirst
              exact hfirst
          obtain ⟨s, hbs⟩ := buildStorm_ok month (pyNameOf h)
            (add_missing_dates_and_empty_cells t) hrows' hf
          rw [hbs]
          exact ⟨_, rfl⟩

theorem save_pages_ok (month : Option String) :
    ∀ pages : List StormPage, (∀ p ∈ pages, pageOkB p = true) →
      ∃ ds, save_data_as_json month pages = .ok ds
  | [], _ => ⟨[], rfl⟩
  | p :: ps, h => by
    obtain ⟨s?, hp⟩ := processPage_ok month p (h p (by simp))
    obtain ⟨ds, hds⟩ :=
      save_pages_ok month ps (fun x hx => h x (by simp [hx]))
    unfold save_data_as_json
    rw [hp, hds]
    cases s? <;> exact ⟨_, rfl⟩

/-- C9 counterexample: a non-numeric wind-speed cell is fatal — on an
otherwise well-formed storm page whose speed cell reads `"abc"`,
`int(speed)` raises an uncaught `ValueError` and the whole
`save_data_as_json` loop aborts with it. -/
theorem C9_nonnumeric_speed_fatal :
    save_data_as_json none
        [{ heading := some "TY X Y",
           table := some
             [["h", "2000-01-01 00:00:00", "x", "1.0", "2.0", "abc",
               "1000"]] }] =
      Except.error "ValueError: int(speed)" := by rfl

/-- C9 amended: the per-link pipeline is total except for the
unguarded conversions: a `None` year-page text (failed year-page
fetch) reaches `BeautifulSoup(None, …)`, which raises an uncaught
`TypeError`; but a truthy non-numeric month argument is harmless —
`int(month)`'s `ValueError` is raised inside the `try` and caught,
keeping the row with its raw time text — and on pages whose rows are
wide enough, whose speed cells are absent or numeric, whose lat/long
cells are absent or float-parseable, and whose first normalized
datetime cell is not `None` when rows exist, the pipeline terminates
without an uncaught exception for *any* month argument, including
failed per-link fetches (`heading`/`table` = `None`), malformed
datetime cells, an absent link table, and an unknown basin name,
producing at worst an empty or partial dataset. -/
theorem C9_no_fatal_failures :
    (∀ (month : Option String) (basin : String),
      save_data_as_json_full month none basin =
        .error "TypeError: BeautifulSoup(None)") ∧
    (∀ (ms s : String) (dt : DT), ms ≠ "" → pyInt ms = none →
      pyStrptime s = some dt →
      timeStep (some ms) (some s) = .ok (some (some s))) ∧
    (∀ (month : Option String) (pages : List StormPage),
      (∀ p ∈ pages, pageOkB p = true) →
      ∃ ds, save_data_as_json month pages = .ok ds) ∧
    (∀ (month : Option String) (idx : YearIndex) (basin : String),
      (∀ (basins : List (String × List StormPage))
        (pages : List StormPage), idx.linkTable = some basins →
        basins.lookup basin = some pages →
        ∀ p ∈ pages, pageOkB p = true) →
      ∃ r, save_data_as_json_full month (some idx) basin = .ok r) := by
  refine ⟨fun month basin => rfl, timeStep_caught_month, save_pages_ok,
    ?_⟩
  intro month idx basin h
  have hunf : save_data_as_json_full month (some idx) basin =
      match resolveBasin basin idx with
      | none => .ok none
      | some pages =>
        match save_data_as_json month pages with
        | .error e => .error e
        | .ok ds => .ok (some ds) := rfl
  rw [hunf]
  cases hrb : resolveBasin basin idx with
  | none => exact ⟨_, rfl⟩
  | some pages =>
    have hpages : ∀ p ∈ pages, pageOkB p = true := by
      unfold resolveBasin at hrb
      cases hlt : idx.linkTable with
      | none => rw [hlt] at hrb; exact Option.noConfusion hrb
      | some basins =>
        rw [hlt] at hrb
        cases basins with
        | nil => exact Option.noConfusion hrb
        | cons b bs =>
          replace hrb : List.lookup basin (b :: bs) = some pages := hrb
          exact h (b :: bs) pages hlt hrb
    obtain ⟨ds, hds⟩ := save_pages_ok month pages hpages
    show ∃ r,
      (match save_data_as_json month pages with
        | .error e => .error e
        | .ok ds => .ok (some ds)) = Except.ok r
    rw [hds]
    exact ⟨_, rfl⟩

/-- Witness for C9: a non-numeric month filter is survived with the raw
time text kept; a failed heading fetch, a failed table fetch, and a
malformed datetime plus absent cells are all survived by the loop; and
the full pipeline survives a year index holding one failed-fetch storm
link. -/
theorem C9_no_fatal_failures_witness :
    timeStep (some "junk") (some "2000-01-01 00:00:00") =
      .ok (some (some "2000-01-01 00:00:00")) ∧
    (∃ ds,
      save_data_as_json none
          [{ heading := none, table := none },
           { heading := some "TY A B", table := none },
           { heading := some "TY A B",
             table := some
               [["h", "garbage", "x", "", "", "", ""],
                ["h", "2000-01-01 06:00:00", "x", "1.5", "2.5", "45",
                 "990"]] }] = .ok ds) ∧
    (∃ r,
      save_data_as_json_full none
          (some (YearIndex.mk (some [("Western Pacific",
            [({ heading := none, table := none } : StormPage)])])))
          "Western Pacific" = .ok r) :=
  ⟨C9_no_fatal_failures.2.1 "junk" "2000-01-01 00:00:00"
      ⟨2000, 1, 1, 0, 0, 0⟩ (by decide) (by decide) (by decide),
    C9_no_fatal_failures.2.2.1 none
      [{ heading := none, table := none },
       { heading := some "TY A B", table := none },
       { heading := some "TY A B",
         table := some
           [["h", "garbage", "x", "", "", "", ""],
            ["h", "2000-01-01 06:00:00", "x", "1.5", "2.5", "45",
             "990"]] }] (by decide),
    C9_no_fatal_failures.2.2.2 none
      (YearIndex.mk (some [("Western Pacific",
        [({ heading := none, table := none } : StormPage)])]))
      "Western Pacific"
      (by
        intro basins pages hb hl
        injection hb with hb
        subst hb
        replace hl : some [StormPage.mk none none] = some pages := hl
        injection hl with hl
        subst hl
        intro p hp
        simp at hp
        subst hp
        rfl)⟩

/-! ## Cache round-trip lemmas -/

theorem decodePoint_encodePoint (p : TrackPoint) :
    decodePoint (encodePoint p) = some p := by
  obtain ⟨t, la, lo, sp, pr, c⟩ := p
  cases t <;> cases la <;> cases lo <;> rfl

theorem mapOpt_decode_encode (l : List TrackPoint) :
    mapOpt decodePoint (l.map encodePoint) = some l := by
  induction l with
  | nil => rfl
  | cons p ps ih =>
    simp only [List.map_cons, mapOpt, decodePoint_encodePoint, ih]

theorem decodeStorm_encodeStorm (s : Storm) :
    decodeStorm (encodeStorm s) = some s := by
  obtain ⟨n, path, st⟩ := s
  rcases st with _ | st
  · simp only [encodeStorm, List.append_nil]
    simp only [decodeStorm, mapOpt_decode_encode, Option.map_some']
  · rcases st with _ | t
    · simp only [encodeStorm, List.cons_append, List.nil_append]
      simp only [decodeStorm, mapOpt_decode_encode, Option.map_some']
    · simp only [encodeStorm, List.cons_append, List.nil_append]
      simp only [decodeStorm, mapOpt_decode_encode, Option.map_some']

theorem decodeDataset_encodeDataset (d : List Storm) :
    decodeDataset (encodeDataset d) = some d := by
  unfold decodeDataset encodeDataset
  induction d with
  | nil => rfl
  | cons s ss ih =>
    simp only [List.map_cons, mapOpt, decodeStorm_encodeStorm]
    simp only [List.map] at ih
    rw [ih]

/-- C6: a cache round trip is lossless: after `save_cache`, `load_cache`
with the same `(year, basin)` key finds the file just written and
returns exactly the JSON encoding of the saved dataset, and that
encoding decodes back to the dataset field-for-field — null fields
(`None` times, lat/long, null `start_time`) and the absent
`start_time` key included. -/
theorem C6_cache_round_trip (d : List Storm)
    (year basin folder : String) (fs : FS) :
    load_cache year basin folder (save_cache d year basin folder fs) =
      some (encodeDataset d) ∧
    decodeDataset (encodeDataset d) = some d := by
  constructor
  · unfold load_cache save_cache
    simp [List.lookup]
  · exact decodeDataset_encodeDataset d

/-- C5 counterexample: a cache file that exists and deserializes
successfully to the empty dataset `[]` does *not* make
`scrape_typhoon_data` return the cached value: `if data:` is false for
an empty list, so the full scrape pipeline runs anyway. -/
theorem C5_empty_cache_rescrapes :
    load_cache "2020" "Western Pacific" "data"
        [(cachePath "data" "2020" "Western Pacific",
          CacheEntry.val (Json.arr []))] = some (Json.arr []) ∧
    (scrape_typhoon_data "2020" "Western Pacific" "data"
        [(cachePath "data" "2020" "Western Pacific",
          CacheEntry.val (Json.arr []))] none).2 = true :=
  ⟨by rfl, by rfl⟩

/-- C5 amended: the scrape pipeline is skipped exactly when the cache
file exists, deserializes successfully *and* the loaded value is truthy
(for the stored datasets: a non-empty array); a truthy cached value is
returned as-is; and a corrupt cache file behaves identically to a
missing one — `load_cache` yields `None` (the caught
`JSONDecodeError`) and the full scrape runs. -/
theorem C5_cache_switch :
    (∀ (year basin folder : String) (fs : FS) (scraped : Option Json),
      (scrape_typhoon_data year basin folder fs scraped).2 = false ↔
        ∃ j, load_cache year basin folder fs = some j ∧
          jsonTruthy j = true) ∧
    (∀ (year basin folder : String) (fs : FS) (scraped : Option Json)
      (j : Json),
      load_cache year basin folder fs = some j → jsonTruthy j = true →
      scrape_typhoon_data year basin folder fs scraped =
        (some j, false)) ∧
    (∀ (year basin folder : String) (tail : FS)
      (scraped : Option Json),
      load_cache year basin folder
          ((cachePath folder year basin, CacheEntry.corrupt) :: tail) =
        none ∧
      scrape_typhoon_data year basin folder
          ((cachePath folder year basin, CacheEntry.corrupt) :: tail)
          scraped =
        scrape_typhoon_data year basin folder [] scraped) := by
  refine ⟨?_, ?_, ?_⟩
  · intro year basin folder fs scraped
    unfold scrape_typhoon_data
    cases hl : load_cache year basin folder fs with
    | none =>
      simp only []
      constructor
      · intro h
        simp at h
      · rintro ⟨j, hj, _⟩
        exact Option.noConfusion hj
    | some d =>
      by_cases ht : jsonTruthy d = true
      · simp only [if_pos ht]
        constructor
        · intro _
          exact ⟨d, rfl, ht⟩
        · intro _
          trivial
      · simp only [if_neg ht]
        constructor
        · intro h
          simp at h
        · rintro ⟨j, hj, htj⟩
          injection hj with hj'
          subst hj'
          exact absurd htj ht
  · intro year basin folder fs scraped j hl ht
    unfold scrape_typhoon_data
    rw [hl]
    simp only [if_pos ht]
  · intro year basin folder tail scraped
    have hl : load_cache year basin folder
        ((cachePath folder year basin, CacheEntry.corrupt) :: tail) =
        none := by
      unfold load_cache
      simp [List.lookup]
    refine ⟨hl, ?_⟩
    unfold scrape_typhoon_data
    rw [hl]
    rfl

/-- Witness for C5 amended: a truthy (non-empty) cached array makes the
pipeline skip the scrape. -/
theorem C5_cache_switch_witness :
    (scrape_typhoon_data "2020" "Western Pacific" "data"
        [(cachePath "data" "2020" "Western Pacific",
          CacheEntry.val (Json.arr [Json.null]))] none).2 = false :=
  (C5_cache_switch.1 "2020" "Western Pacific" "data"
      [(cachePath "data" "2020" "Western Pacific",
        CacheEntry.val (Json.arr [Json.null]))] none).mpr
    ⟨Json.arr [Json.null], by rfl, by rfl⟩
